import Mathlib

/-!
Shallow embedding of the process-lifecycle supervisor
(`src/supervisor/core/process_manager.py`) and proofs about it.

The OS (process table, port table, signal behaviour, spawn outcome) is an
explicit environment value threaded through the operations; it is held fixed
during an operation except where the code itself mutates it (signals, spawn).
Python exceptions are modelled with `Except`; each `try/except` in the source
appears as an explicit handler on the embedded body.
-/

namespace Maestro

/-- Status of an OS process as seen through the process table.
`gone` raises `NoSuchProcess` on inspection, `denied` raises `AccessDenied`. -/
inductive ProcStatus where
  | running
  | zombie
  | gone
  | denied
deriving DecidableEq, Repr

/-- Python-level exceptions relevant to the supervisor.  A `PermissionError`
from `os.killpg` is caught inline by the source (line 482) and turned into a
fallback `process.terminate()`, which raises `AccessDenied` on a protected
process; that combined path surfaces here as `accessDenied`. -/
inductive PyExc where
  | noSuchProcess
  | accessDenied
  | spawnFailure (msg : String)
deriving DecidableEq, Repr

/-- Observable actions the supervisor performs on the outside world. -/
inductive Event where
  | terminate (pid : Nat)
  | kill (pid : Nat)
  | spawned (pid : Nat)
  | attached (pid : Nat)
  | slept (delay : Nat)
deriving DecidableEq, Repr

/-- The OS environment: process table, port table, how processes react to
signals, and the outcome `subprocess.Popen` would produce. -/
structure OS where
  procStatus : Nat → ProcStatus
  /-- pids with a listening socket on a port; `psutil.net_connections`
  reports the first, `ss`/`lsof` report all of them. -/
  portPids : Nat → List Nat
  /-- signalling this pid raises a permission error (see `PyExc`). -/
  signalDenied : Nat → Bool
  /-- SIGTERM suffices to stop this pid within the bounded wait. -/
  termStops : Nat → Bool
  /-- SIGKILL suffices to stop this pid within the bounded wait. -/
  killStops : Nat → Bool
  /-- `subprocess.Popen`: `some pid` on success, `none` when spawning raises. -/
  spawnResult : Option Nat
  /-- `str(e)` of the exception raised by a failing spawn. -/
  spawnErrMsg : String
  /-- `os.getpid()` of the supervisor itself. -/
  selfPid : Nat

/-- `ProcessConfig` (process_manager.py lines 18-30).  `command` is
`Union[str, List[str]]`.  Filesystem-only fields (`working_dir`, `env`,
`log_file_path`) do not influence the control flow modelled here and are
carried as plain data. -/
structure ProcessConfig where
  command : Sum String (List String)
  workingDir : String := "."
  envOverrides : List (String × String) := []
  restartDelay : Nat := 1
  maxRestartAttempts : Nat := 3
  captureOutput : Bool := true
  port : Option Nat := none
  logToFile : Bool := true
  logFilePath : Option String := none
deriving DecidableEq, Repr

/-- The mutable fields of `ProcessManager` (lines 42-47).
`hasProc` stands for `self._process is not None`; `stdoutPipe` records
whether the spawned child was given a pipe (`Popen.stdout is not None`). -/
structure Mgr where
  config : ProcessConfig
  hasProc : Bool := false
  pid : Option Nat := none
  restartCount : Nat := 0
  hasCallback : Bool := false
  logHandleOpen : Bool := false
  stdoutPipe : Bool := false
deriving DecidableEq, Repr

/-- `ProcessManager.__init__` (lines 36-51): `_setup_log_file` only resolves
the path, it does not open a handle. -/
def initMgr (cfg : ProcessConfig) : Mgr := { config := cfg }

/-- Result of a lifecycle operation: final manager state, final OS state,
emitted events, and the `(ok, message)` pair the Python methods return. -/
structure OpResult where
  mgr : Mgr
  os : OS
  events : List Event
  ok : Bool
  msg : String

/-- `is_running` (lines 83-97): requires both `_process` and `_pid` to be
set, then re-checks the OS process table; `NoSuchProcess`, `AccessDenied`,
`ZombieProcess` and zombie status all yield `False`. -/
def is_running (m : Mgr) (os : OS) : Bool :=
  match m.pid with
  | none => false
  | some pid =>
    if !m.hasProc then false
    else
      match os.procStatus pid with
      | .running => true
      | _ => false

/-- The port-owner lookup backing `_find_process_by_port`
(`psutil.net_connections`, lines 99-117): the first listening pid. -/
def portOwner (os : OS) (p : Nat) : Option Nat :=
  (os.portPids p).head?

/-- `_find_process_by_port` (lines 99-117). -/
def find_process_by_port (m : Mgr) (os : OS) : Option Nat :=
  match m.config.port with
  | none => none
  | some p => portOwner os p

/-- `_get_processes_using_port` (lines 289-332): `ss`/`lsof` enumeration;
the source ends with `list(set(pids))`, modelled as `dedup`. -/
def getProcessesUsingPort (os : OS) (p : Nat) : List Nat :=
  (os.portPids p).dedup

/-- `attach_to_existing_process` (lines 119-146). -/
def attach_to_existing_process (m : Mgr) (os : OS) :
    Mgr × List Event × Bool × String :=
  match m.config.port with
  | none => (m, [], false, "No port configured to find existing process")
  | some p =>
    if is_running m os then (m, [], true, "Already attached to a running process")
    else
      match portOwner os p with
      | none => (m, [], false, s!"No process found listening on port {p}")
      | some pid =>
        ({ m with pid := some pid, hasProc := false },
         [Event.attached pid], true,
         s!"Attached to existing process with PID: {pid}")

/-- Effect of a delivered fatal signal on the OS tables: the process leaves
the process table and releases any listening sockets. -/
def removeProc (os : OS) (pid : Nat) : OS :=
  { os with
    procStatus := fun q => if q = pid then .gone else os.procStatus q,
    portPids := fun p => (os.portPids p).filter (fun q => q != pid) }

/-- `_kill_process_by_pid` (lines 334-370): `psutil.Process(pid)`, graceful
terminate, bounded wait, then force kill and a second bounded wait;
`NoSuchProcess` counts as success, any other exception as failure. -/
def kill_process_by_pid (os : OS) (pid : Nat) : OS × List Event × Bool :=
  match os.procStatus pid with
  | .gone => (os, [], true)
  | .denied => (os, [], false)
  | _ =>
    if os.signalDenied pid then (os, [], false)
    else if os.termStops pid then
      (removeProc os pid, [Event.terminate pid], true)
    else if os.killStops pid then
      (removeProc os pid, [Event.terminate pid, Event.kill pid], true)
    else (os, [Event.terminate pid, Event.kill pid], false)

/-- The pid loop of `_force_kill_port_processes` (lines 390-397): each pid in
turn, skipping the supervisor's own pid. -/
def killPids (os : OS) : List Nat → OS × List Event × List Bool
  | [] => (os, [], [])
  | pid :: rest =>
    if pid = os.selfPid then killPids os rest
    else
      let r1 := kill_process_by_pid os pid
      let r2 := killPids r1.1 rest
      (r2.1, r1.2.1 ++ r2.2.1, r1.2.2 :: r2.2.2)

/-- `_force_kill_port_processes` (lines 372-406): kill every port owner
except the supervisor itself, then re-query the port and report whether it
is free (the individual kill results are ignored by the source). -/
def force_kill_port_processes (m : Mgr) (os : OS) : OS × List Event × Bool :=
  match m.config.port with
  | none => (os, [], true)
  | some p =>
    let pids := getProcessesUsingPort os p
    if pids.isEmpty then (os, [], true)
    else
      let r := killPids os pids
      (r.1, r.2.1, (getProcessesUsingPort r.1 p).isEmpty)

/-- `_verify_port_released` (lines 408-438): poll both lookups; with the OS
held fixed during the poll, either both report the port free at once, or the
bounded loop times out and `_force_kill_port_processes` decides the result. -/
def verify_port_released (m : Mgr) (os : OS) : OS × List Event × Bool :=
  match m.config.port with
  | none => (os, [], true)
  | some p =>
    if (portOwner os p).isNone && (getProcessesUsingPort os p).isEmpty then
      (os, [], true)
    else force_kill_port_processes m os

/-- Final section of `stop` (lines 511-533): close the log handle, clear
`_process`/`_pid`, then a last `_verify_port_released` when a port is
configured. -/
def stopFinish (m : Mgr) (os : OS) (evs : List Event) : OpResult :=
  let m1 := { m with logHandleOpen := false, hasProc := false, pid := none }
  match m.config.port with
  | none => { mgr := m1, os := os, events := evs, ok := true, msg := "Process stopped" }
  | some p =>
    let r := verify_port_released m1 os
    if r.2.2 then
      { mgr := m1, os := r.1, events := evs ++ r.2.1, ok := true, msg := "Process stopped" }
    else
      { mgr := m1, os := r.1, events := evs ++ r.2.1, ok := false,
        msg := s!"Process appears stopped but port {p} is still in use" }

/-- `stop`, lines 494-509: when this was an attached run or a port is
configured, verify the release; on failure an attached run additionally
kills the current port owner directly, failing the call if that owner
cannot even be inspected. -/
def stopPortPhase (m : Mgr) (os : OS) (evs : List Event) (wasAttached : Bool) :
    OpResult :=
  if wasAttached || m.config.port.isSome then
    let r := verify_port_released m os
    let os2 := r.1
    let evs2 := evs ++ r.2.1
    if r.2.2 then stopFinish m os2 evs2
    else if wasAttached then
      match m.config.port with
      | some p =>
        match portOwner os2 p with
        | some q =>
          match os2.procStatus q with
          | .gone =>
            { mgr := m, os := os2, events := evs2, ok := false,
              msg := s!"Failed to release port {p}" }
          | .denied =>
            { mgr := m, os := os2, events := evs2, ok := false,
              msg := s!"Failed to release port {p}" }
          | _ =>
            let os3 := if os2.killStops q then removeProc os2 q else os2
            stopFinish m os3 (evs2 ++ [Event.kill q])
        | none => stopFinish m os2 evs2
      | none => stopFinish m os2 evs2
    else stopFinish m os2 evs2
  else stopFinish m os evs

/-- The `try` body of `stop` (lines 453-533).  `psutil.Process` raises per
the process table; `os.killpg(SIGTERM)` under a permission error falls back
to `process.terminate()` which raises `AccessDenied` (modelled by
`signalDenied`); otherwise SIGTERM, a bounded wait, and SIGKILL escalation
run their course and the remaining steps are pure. -/
def stopBody (m : Mgr) (os : OS) (pid : Nat) : Except PyExc OpResult :=
  match os.procStatus pid with
  | .gone => .error .noSuchProcess
  | .denied => .error .accessDenied
  | _ =>
    let wasAttached := !m.hasProc
    if os.signalDenied pid then .error .accessDenied
    else
      let stopped := os.termStops pid || os.killStops pid
      let os1 := if stopped then removeProc os pid else os
      let evs :=
        if os.termStops pid then [Event.terminate pid]
        else [Event.terminate pid, Event.kill pid]
      .ok (stopPortPhase m os1 evs wasAttached)

/-- `stop` (lines 440-543) with its boundary handler made explicit: the
`except (NoSuchProcess, AccessDenied)` clause absorbs exactly those two
exceptions; anything else would propagate as `.error`. -/
def stopExc (m : Mgr) (os : OS) : Except PyExc OpResult :=
  if !is_running m os then
    .ok { mgr := m, os := os, events := [], ok := true, msg := "Process is not running" }
  else
    match m.pid with
    | none =>
      .ok { mgr := m, os := os, events := [], ok := false, msg := "No process ID available" }
    | some pid =>
      match stopBody m os pid with
      | .ok r => .ok r
      | .error .noSuchProcess =>
        .ok { mgr := { m with hasProc := false, pid := none }, os := os,
              events := [], ok := true, msg := "Process no longer exists (already stopped)" }
      | .error .accessDenied =>
        .ok { mgr := m, os := os, events := [], ok := false,
              msg := "Failed to stop process: access denied" }
      | .error e => .error e

/-- `stop` as the controller sees it; the fallback branch is dead
(`stopExc` never propagates, see C8). -/
def stop (m : Mgr) (os : OS) : OpResult :=
  match stopExc m os with
  | .ok r => r
  | .error _ => { mgr := m, os := os, events := [], ok := false, msg := "" }

/-- The `try` body of `start` (lines 183-252): split a string command on
whitespace, open the log handle when file logging is on (the child then
writes straight to the file and gets no pipe; a pipe exists only when
capturing without file logging), then `Popen`; on success record pid and
handle and reset nothing further. -/
def startTryBody (m : Mgr) (os : OS) : Except PyExc OpResult :=
  let m1 := if m.config.logToFile then { m with logHandleOpen := true } else m
  match os.spawnResult with
  | none => .error (.spawnFailure os.spawnErrMsg)
  | some newPid =>
    let os1 := { os with
      procStatus := fun q => if q = newPid then .running else os.procStatus q }
    let m2 := { m1 with
      hasProc := true, pid := some newPid,
      stdoutPipe := !m.config.logToFile && m.config.captureOutput }
    .ok { mgr := m2, os := os1, events := [Event.spawned newPid], ok := true,
          msg := s!"Process started with PID: {newPid}" }

/-- Lines 182-261 of `start`: reset the restart counter, then the `try`
block guarded by the catch-all `except Exception`, which closes the
just-opened log handle and reports the failure reason. -/
def startSpawn (m : Mgr) (os : OS) (evs : List Event) : OpResult :=
  let m0 := { m with restartCount := 0 }
  match startTryBody m0 os with
  | .ok r => { r with events := evs ++ r.events }
  | .error e =>
    let m1 := { m0 with logHandleOpen := false }
    let reason := match e with
      | .spawnFailure s => s
      | .noSuchProcess => "no such process"
      | .accessDenied => "access denied"
    { mgr := m1, os := os, events := evs, ok := false,
      msg := "Failed to start process: " ++ reason }

/-- Lines 169-181 of `start`: with `force_new` and a configured port, clear
the port first and give up (without spawning) when it cannot be freed. -/
def startForce (m : Mgr) (os : OS) (forceNew : Bool) (evs : List Event) :
    OpResult :=
  if forceNew then
    match m.config.port with
    | some p =>
      if !(getProcessesUsingPort os p).isEmpty then
        let r := force_kill_port_processes m os
        if !r.2.2 then
          { mgr := m, os := r.1, events := evs ++ r.2.1, ok := false,
            msg := s!"Failed to free port {p} for new process" }
        else startSpawn m r.1 (evs ++ r.2.1)
      else startSpawn m os evs
    | none => startSpawn m os evs
  else startSpawn m os evs

/-- `start` (lines 148-261): idempotence check, attach attempt (skipped
under `force_new`), port clearing, then the spawn block. -/
def start (m : Mgr) (os : OS) (forceNew : Bool) : OpResult :=
  if is_running m os then
    { mgr := m, os := os, events := [], ok := true, msg := "Process is already running" }
  else if m.config.port.isSome && !forceNew then
    match attach_to_existing_process m os with
    | (m1, evs, true, msg) =>
      { mgr := m1, os := os, events := evs, ok := true, msg := msg }
    | (m1, evs, false, _) => startForce m1 os forceNew evs
  else startForce m os forceNew []

/-- `start` with the (absent) boundary handler made explicit: every phase of
`start` already returns a result, so nothing can propagate. -/
def startExc (m : Mgr) (os : OS) (forceNew : Bool) : Except PyExc OpResult :=
  .ok (start m os forceNew)

/-- `restart` (lines 545-553): `stop`, the configured delay, then
`start(force_new_process=True)`; the result of `stop` is discarded. -/
def restartExc (m : Mgr) (os : OS) : Except PyExc OpResult :=
  match stopExc m os with
  | .error e => .error e
  | .ok r1 =>
    match startExc r1.mgr r1.os true with
    | .error e => .error e
    | .ok r2 =>
      .ok { r2 with
            events := r1.events ++ Event.slept m.config.restartDelay :: r2.events }

/-- `restart` as the controller sees it. -/
def restart (m : Mgr) (os : OS) : OpResult :=
  match restartExc m os with
  | .ok r => r
  | .error _ => { mgr := m, os := os, events := [], ok := false, msg := "" }

/-- The exit-detection tail of `_read_output` (lines 601-625): once the
child's exit status is observable, close the log handle, clear state, and
auto-restart with `force_new` while the attempt counter is below the
configured maximum. -/
def handleExit (m : Mgr) (os : OS) (childExited : Bool) : OpResult :=
  if m.hasProc && childExited then
    let m1 := { m with logHandleOpen := false, hasProc := false, pid := none }
    if m1.restartCount < m1.config.maxRestartAttempts then
      let m2 := { m1 with restartCount := m1.restartCount + 1 }
      let r := start m2 os true
      { r with events := Event.slept m.config.restartDelay :: r.events }
    else { mgr := m1, os := os, events := [], ok := true, msg := "" }
  else { mgr := m, os := os, events := [], ok := true, msg := "" }

/-- `set_output_callback` (lines 555-561). -/
def set_output_callback (m : Mgr) : Mgr := { m with hasCallback := true }

/-- Python `str.rstrip()` on a character list: drop trailing whitespace. -/
def rstripChars (cs : List Char) : List Char :=
  (cs.reverse.dropWhile Char.isWhitespace).reverse

/-- Python `str.rstrip()` as used on each output line (line 580). -/
def pyRstrip (s : String) : String :=
  String.mk (rstripChars s.data)

/-- Accumulating tokenizer behind Python's no-argument `str.split()`:
tokens are the maximal runs of non-whitespace characters. -/
def splitWsAux (acc : List Char) : List Char → List (List Char)
  | [] => if acc.isEmpty then [] else [acc.reverse]
  | c :: cs =>
    if c.isWhitespace then
      if acc.isEmpty then splitWsAux [] cs
      else acc.reverse :: splitWsAux [] cs
    else splitWsAux (c :: acc) cs

/-- Python's no-argument `str.split()` (whitespace split, empty tokens
discarded), as invoked by `cmd.split()` on line 186. -/
def pySplit (s : String) : List String :=
  (splitWsAux [] s.data).map String.mk

/-- Lines 184-186 of `start`: the argument vector handed to `Popen` — a
plain whitespace split for a string command, the list itself otherwise. -/
def buildArgv : Sum String (List String) → List String
  | .inl s => pySplit s
  | .inr l => l

/-- The line loop of `_read_output` (lines 563-599): nothing at all happens
when the child has no pipe (line 565); otherwise every line is `rstrip`ped,
written and flushed to the log sink when capture and file logging are both
on and the handle is open, and handed to the registered callback.  Returns
(lines delivered to the callback, lines written to the log sink). -/
def readOutputDeliveries (m : Mgr) (lines : List String) :
    List String × List String :=
  if !m.stdoutPipe then ([], [])
  else
    let processed := lines.map pyRstrip
    let cb := if m.hasCallback then processed else []
    let sink :=
      if m.config.captureOutput && m.config.logToFile && m.logHandleOpen then
        processed
      else []
    (cb, sink)

/-- Manager states reachable through the public operations (the OS
environment and call arguments are arbitrary at every step). -/
inductive Reachable : Mgr → Prop where
  | init (cfg : ProcessConfig) : Reachable (initMgr cfg)
  | startStep (m : Mgr) (os : OS) (forceNew : Bool) :
      Reachable m → Reachable (start m os forceNew).mgr
  | stopStep (m : Mgr) (os : OS) :
      Reachable m → Reachable (stop m os).mgr
  | restartStep (m : Mgr) (os : OS) :
      Reachable m → Reachable (restart m os).mgr
  | attachStep (m : Mgr) (os : OS) :
      Reachable m → Reachable (attach_to_existing_process m os).1
  | exitStep (m : Mgr) (os : OS) (childExited : Bool) :
      Reachable m → Reachable (handleExit m os childExited).mgr
  | callbackStep (m : Mgr) :
      Reachable m → Reachable (set_output_callback m)

/-! ## Helper lemmas -/

theorem is_running_true_iff (m : Mgr) (os : OS) :
    is_running m os = true ↔
      m.hasProc = true ∧ ∃ pid, m.pid = some pid ∧ os.procStatus pid = .running := by
  unfold is_running
  cases h : m.pid with
  | none => simp
  | some pid =>
    cases hp : m.hasProc with
    | false => simp
    | true =>
      cases hs : os.procStatus pid <;> simp [hs]

theorem removeProc_procStatus_ne (os : OS) (pid q : Nat) (h : q ≠ pid) :
    (removeProc os pid).procStatus q = os.procStatus q := by
  simp [removeProc, h]

theorem kill_pid_selfPid (os : OS) (pid : Nat) :
    (kill_process_by_pid os pid).1.selfPid = os.selfPid := by
  unfold kill_process_by_pid
  split <;> first | rfl | (split_ifs <;> rfl)

theorem kill_pid_signalDenied (os : OS) (pid : Nat) :
    (kill_process_by_pid os pid).1.signalDenied = os.signalDenied := by
  unfold kill_process_by_pid
  split <;> first | rfl | (split_ifs <;> rfl)

theorem kill_pid_termStops (os : OS) (pid : Nat) :
    (kill_process_by_pid os pid).1.termStops = os.termStops := by
  unfold kill_process_by_pid
  split <;> first | rfl | (split_ifs <;> rfl)

theorem kill_pid_procStatus_ne (os : OS) (pid q : Nat) (h : q ≠ pid) :
    (kill_process_by_pid os pid).1.procStatus q = os.procStatus q := by
  unfold kill_process_by_pid
  split <;> first
  | rfl
  | (split_ifs <;> simp [removeProc_procStatus_ne os pid q h])

theorem kill_pid_events_shape (os : OS) (pid : Nat) :
    ∀ e ∈ (kill_process_by_pid os pid).2.1,
      e = Event.terminate pid ∨ e = Event.kill pid := by
  unfold kill_process_by_pid
  split <;> first
  | simp
  | (split_ifs <;> simp)

theorem kill_pid_escalation (os : OS) (pid : Nat)
    (hst : os.procStatus pid = .running) (hsd : os.signalDenied pid = false) :
    Event.terminate pid ∈ (kill_process_by_pid os pid).2.1 ∧
      (os.termStops pid = false → Event.kill pid ∈ (kill_process_by_pid os pid).2.1) := by
  unfold kill_process_by_pid
  rw [hst]
  simp only [hsd]
  split_ifs with h1 h2 <;> simp_all

theorem killPids_selfPid (os : OS) (pids : List Nat) :
    (killPids os pids).1.selfPid = os.selfPid := by
  induction pids generalizing os with
  | nil => rfl
  | cons pid rest ih =>
    unfold killPids
    split_ifs with h
    · exact ih os
    · simp only []
      rw [ih, kill_pid_selfPid]

theorem killPids_self_events (os : OS) (pids : List Nat) :
    Event.terminate os.selfPid ∉ (killPids os pids).2.1 ∧
      Event.kill os.selfPid ∉ (killPids os pids).2.1 := by
  induction pids generalizing os with
  | nil => simp [killPids]
  | cons pid rest ih =>
    unfold killPids
    split_ifs with h
    · exact ih os
    · have hself := kill_pid_selfPid os pid
      have hshape := kill_pid_events_shape os pid
      have hrest := ih (kill_process_by_pid os pid).1
      rw [hself] at hrest
      constructor
      · simp only [List.mem_append]
        rintro (hmem | hmem)
        · rcases hshape _ hmem with he | he <;> simp_all
        · exact hrest.1 hmem
      · simp only [List.mem_append]
        rintro (hmem | hmem)
        · rcases hshape _ hmem with he | he <;> simp_all
        · exact hrest.2 hmem

theorem killPids_events_shape (os : OS) (pids : List Nat) :
    ∀ e ∈ (killPids os pids).2.1,
      (∃ q, e = Event.terminate q) ∨ (∃ q, e = Event.kill q) := by
  induction pids generalizing os with
  | nil => simp [killPids]
  | cons pid rest ih =>
    unfold killPids
    split_ifs with h
    · exact ih os
    · intro e he
      simp only [List.mem_append] at he
      rcases he with he | he
      · rcases kill_pid_events_shape os pid e he with h1 | h1
        · exact Or.inl ⟨pid, h1⟩
        · exact Or.inr ⟨pid, h1⟩
      · exact ih _ e he

theorem killPids_escalation (os : OS) (pids : List Nat) (q : Nat)
    (hnd : pids.Nodup) (hmem : q ∈ pids) (hq : q ≠ os.selfPid)
    (hst : os.procStatus q = .running) (hsd : os.signalDenied q = false) :
    Event.terminate q ∈ (killPids os pids).2.1 ∧
      (os.termStops q = false → Event.kill q ∈ (killPids os pids).2.1) := by
  induction pids generalizing os with
  | nil => simp at hmem
  | cons pid rest ih =>
    rcases List.mem_cons.mp hmem with rfl | hmem'
    · unfold killPids
      split_ifs with h
      · exact absurd h hq
      · have := kill_pid_escalation os q hst hsd
        constructor
        · exact List.mem_append.mpr (Or.inl this.1)
        · exact fun ht => List.mem_append.mpr (Or.inl (this.2 ht))
    · have hne : q ≠ pid := by
        rintro rfl
        exact (List.nodup_cons.mp hnd).1 hmem'
      unfold killPids
      split_ifs with h
      · exact ih os (List.nodup_cons.mp hnd).2 hmem' hq hst hsd
      · have hq' : q ≠ (kill_process_by_pid os pid).1.selfPid := by
          rw [kill_pid_selfPid]; exact hq
        have hst' : (kill_process_by_pid os pid).1.procStatus q = .running := by
          rw [kill_pid_procStatus_ne os pid q hne]; exact hst
        have hsd' : (kill_process_by_pid os pid).1.signalDenied q = false := by
          rw [kill_pid_signalDenied]; exact hsd
        have hres := ih (kill_process_by_pid os pid).1
          (List.nodup_cons.mp hnd).2 hmem' hq' hst' hsd'
        rw [kill_pid_termStops] at hres
        constructor
        · exact List.mem_append.mpr (Or.inr hres.1)
        · exact fun ht => List.mem_append.mpr (Or.inr (hres.2 ht))

theorem force_kill_self_events (m : Mgr) (os : OS) :
    Event.terminate os.selfPid ∉ (force_kill_port_processes m os).2.1 ∧
      Event.kill os.selfPid ∉ (force_kill_port_processes m os).2.1 := by
  unfold force_kill_port_processes
  split
  · simp
  · dsimp only
    split_ifs with h
    · simp
    · exact killPids_self_events os _

theorem force_kill_events_shape (m : Mgr) (os : OS) :
    ∀ e ∈ (force_kill_port_processes m os).2.1,
      (∃ q, e = Event.terminate q) ∨ (∃ q, e = Event.kill q) := by
  unfold force_kill_port_processes
  split
  · simp
  · dsimp only
    split_ifs with h
    · simp
    · exact killPids_events_shape os _

theorem force_kill_true_free (m : Mgr) (os : OS) (p : Nat)
    (hp : m.config.port = some p)
    (h : (force_kill_port_processes m os).2.2 = true) :
    (force_kill_port_processes m os).1.portPids p = [] := by
  unfold force_kill_port_processes at h ⊢
  rw [hp] at h ⊢
  simp only [] at h ⊢
  split_ifs at h ⊢ with he
  · unfold getProcessesUsingPort at he
    simpa [List.isEmpty_iff, List.dedup_eq_nil] using he
  · unfold getProcessesUsingPort at h
    simpa [List.isEmpty_iff, List.dedup_eq_nil] using h

theorem verify_events_shape (m : Mgr) (os : OS) :
    ∀ e ∈ (verify_port_released m os).2.1,
      (∃ q, e = Event.terminate q) ∨ (∃ q, e = Event.kill q) := by
  unfold verify_port_released
  split
  · simp
  · split_ifs with h
    · simp
    · exact force_kill_events_shape m os

theorem verify_true_free (m : Mgr) (os : OS) (p : Nat)
    (hp : m.config.port = some p)
    (h : (verify_port_released m os).2.2 = true) :
    (verify_port_released m os).1.portPids p = [] := by
  unfold verify_port_released at h ⊢
  rw [hp] at h ⊢
  simp only [] at h ⊢
  split_ifs at h ⊢ with he
  · rcases Bool.and_eq_true_iff.mp he with ⟨_, h2⟩
    unfold getProcessesUsingPort at h2
    simpa [List.isEmpty_iff, List.dedup_eq_nil] using h2
  · exact force_kill_true_free m os p hp h

/-- The event shapes a stop can produce. -/
def termOrKill (e : Event) : Prop :=
  (∃ q, e = Event.terminate q) ∨ (∃ q, e = Event.kill q)

theorem stopFinish_mgr (m : Mgr) (os : OS) (evs : List Event) :
    (stopFinish m os evs).mgr =
      { m with logHandleOpen := false, hasProc := false, pid := none } := by
  unfold stopFinish
  split
  · rfl
  · dsimp only
    split_ifs <;> rfl

theorem stopFinish_ok_free (m : Mgr) (os : OS) (evs : List Event) (p : Nat)
    (hp : m.config.port = some p)
    (h : (stopFinish m os evs).ok = true) :
    (stopFinish m os evs).os.portPids p = [] := by
  unfold stopFinish at h ⊢
  rw [hp] at h ⊢
  dsimp only at h ⊢
  split_ifs at h ⊢ with hv
  exact verify_true_free _ os p hp hv

theorem stopFinish_events_shape (m : Mgr) (os : OS) (evs : List Event)
    (hevs : ∀ e ∈ evs, termOrKill e) :
    ∀ e ∈ (stopFinish m os evs).events, termOrKill e := by
  unfold stopFinish
  split
  · exact hevs
  · dsimp only
    split_ifs with hv <;>
    · intro e he
      rcases List.mem_append.mp he with h1 | h1
      · exact hevs e h1
      · exact verify_events_shape _ os e h1

theorem stopPortPhase_mgr (m : Mgr) (os : OS) (evs : List Event) (w : Bool) :
    (stopPortPhase m os evs w).mgr = m ∨
      (stopPortPhase m os evs w).mgr =
        { m with logHandleOpen := false, hasProc := false, pid := none } := by
  unfold stopPortPhase
  dsimp only
  split_ifs <;> (repeat' split) <;>
    first
      | exact Or.inl rfl
      | exact Or.inr (stopFinish_mgr _ _ _)

theorem stopPortPhase_ok_free (m : Mgr) (os : OS) (evs : List Event) (w : Bool)
    (p : Nat) (hp : m.config.port = some p)
    (h : (stopPortPhase m os evs w).ok = true) :
    (stopPortPhase m os evs w).os.portPids p = [] := by
  revert h
  unfold stopPortPhase
  dsimp only
  split_ifs <;> (repeat' split) <;> intro h <;>
    first
      | exact stopFinish_ok_free _ _ _ p hp h
      | simp at h

theorem stopPortPhase_events_shape (m : Mgr) (os : OS) (evs : List Event)
    (w : Bool) (hevs : ∀ e ∈ evs, termOrKill e) :
    ∀ e ∈ (stopPortPhase m os evs w).events, termOrKill e := by
  have hverify : ∀ e ∈ evs ++ (verify_port_released m os).2.1, termOrKill e := by
    intro e he
    rcases List.mem_append.mp he with h1 | h1
    · exact hevs e h1
    · exact verify_events_shape m os e h1
  have hkill : ∀ q, ∀ e ∈ evs ++ (verify_port_released m os).2.1 ++ [Event.kill q],
      termOrKill e := by
    intro q e he
    rcases List.mem_append.mp he with h4 | h4
    · exact hverify e h4
    · simp only [List.mem_singleton] at h4
      exact Or.inr ⟨_, h4⟩
  unfold stopPortPhase
  dsimp only
  split_ifs <;> (repeat' split) <;>
    first
      | exact stopFinish_events_shape _ _ _ hverify
      | exact stopFinish_events_shape _ _ _ (hkill _)
      | exact stopFinish_events_shape _ _ _ hevs
      | exact hverify

theorem stop_denied_eq (m : Mgr) (os : OS) (pid : Nat)
    (hrun : is_running m os = true) (hpid : m.pid = some pid)
    (hst : os.procStatus pid = .running) (hsd : os.signalDenied pid = true) :
    stop m os = { mgr := m, os := os, events := [], ok := false,
                  msg := "Failed to stop process: access denied" } := by
  unfold stop stopExc stopBody
  simp [hrun, hpid, hst, hsd]

theorem stop_running_eq (m : Mgr) (os : OS) (pid : Nat)
    (hrun : is_running m os = true) (hpid : m.pid = some pid)
    (hst : os.procStatus pid = .running) (hsd : os.signalDenied pid = false) :
    stop m os = stopPortPhase m
      (if os.termStops pid || os.killStops pid then removeProc os pid else os)
      (if os.termStops pid then [Event.terminate pid]
       else [Event.terminate pid, Event.kill pid])
      (!m.hasProc) := by
  unfold stop stopExc stopBody
  simp [hrun, hpid, hst, hsd]

theorem stopBody_errors (m : Mgr) (os : OS) (pid : Nat) :
    ∀ e, stopBody m os pid = .error e →
      e = PyExc.noSuchProcess ∨ e = PyExc.accessDenied := by
  unfold stopBody
  split
  · intro e h
    injection h with h
    exact Or.inl h.symm
  · intro e h
    injection h with h
    exact Or.inr h.symm
  · dsimp only
    split_ifs with hsd
    · intro e h
      injection h with h
      exact Or.inr h.symm
    · intro e h
      simp at h

theorem stopBody_ok_mgr (m : Mgr) (os : OS) (pid : Nat) (r : OpResult)
    (h : stopBody m os pid = .ok r) :
    r.mgr = m ∨
      r.mgr = { m with logHandleOpen := false, hasProc := false, pid := none } := by
  unfold stopBody at h
  split at h
  · simp at h
  · simp at h
  · dsimp only at h
    by_cases hsd : os.signalDenied pid = true
    · rw [if_pos hsd] at h
      simp at h
    · rw [if_neg hsd] at h
      injection h with h
      rw [← h]
      exact stopPortPhase_mgr m _ _ _

theorem stopBody_ok_events (m : Mgr) (os : OS) (pid : Nat) (r : OpResult)
    (h : stopBody m os pid = .ok r) :
    ∀ e ∈ r.events, termOrKill e := by
  unfold stopBody at h
  split at h
  · simp at h
  · simp at h
  · dsimp only at h
    by_cases hsd : os.signalDenied pid = true
    · rw [if_pos hsd] at h
      simp at h
    · rw [if_neg hsd] at h
      injection h with h
      rw [← h]
      refine stopPortPhase_events_shape m _ _ _ ?_
      intro e he
      by_cases ht : os.termStops pid = true
      · rw [if_pos ht] at he
        simp only [List.mem_singleton] at he
        exact Or.inl ⟨_, he⟩
      · rw [if_neg ht] at he
        simp only [List.mem_cons, List.not_mem_nil, or_false] at he
        rcases he with he | he
        · exact Or.inl ⟨_, he⟩
        · exact Or.inr ⟨_, he⟩

theorem stopExc_isOk (m : Mgr) (os : OS) : ∃ r, stopExc m os = .ok r := by
  unfold stopExc
  split_ifs with h
  · exact ⟨_, rfl⟩
  · cases hpid : m.pid with
    | none => simp
    | some pid =>
      cases hb : stopBody m os pid with
      | ok r => simp [hb]
      | error e =>
        rcases stopBody_errors m os pid e hb with rfl | rfl <;> simp [hb]

theorem stop_of_stopExc (m : Mgr) (os : OS) (r : OpResult)
    (h : stopExc m os = .ok r) : stop m os = r := by
  unfold stop
  rw [h]

theorem stop_mgr_cases (m : Mgr) (os : OS) :
    (stop m os).mgr = m ∨
      (stop m os).mgr = { m with hasProc := false, pid := none } ∨
      (stop m os).mgr =
        { m with logHandleOpen := false, hasProc := false, pid := none } := by
  unfold stop stopExc
  split_ifs with h
  · exact Or.inl rfl
  · cases hpid : m.pid with
    | none => simp
    | some pid =>
      cases hb : stopBody m os pid with
      | ok r =>
        simp only [hb]
        rcases stopBody_ok_mgr m os pid r hb with h1 | h1
        · exact Or.inl h1
        · exact Or.inr (Or.inr h1)
      | error e =>
        rcases stopBody_errors m os pid e hb with rfl | rfl <;> simp [hb]

theorem stop_events_shape (m : Mgr) (os : OS) :
    ∀ e ∈ (stop m os).events, termOrKill e := by
  unfold stop stopExc
  split_ifs with h
  · simp
  · cases hpid : m.pid with
    | none => simp
    | some pid =>
      cases hb : stopBody m os pid with
      | ok r =>
        simp only [hb]
        exact stopBody_ok_events m os pid r hb
      | error e =>
        rcases stopBody_errors m os pid e hb with rfl | rfl <;> simp [hb]

/-- Event shapes a forced start can produce: signals and a spawn. -/
def termKillSpawn (e : Event) : Prop :=
  termOrKill e ∨ ∃ q, e = Event.spawned q

theorem startSpawn_count (m : Mgr) (os : OS) (evs : List Event) :
    (startSpawn m os evs).mgr.restartCount = 0 := by
  unfold startSpawn startTryBody
  dsimp only
  cases hsp : os.spawnResult <;> split_ifs <;> rfl

theorem startSpawn_config (m : Mgr) (os : OS) (evs : List Event) :
    (startSpawn m os evs).mgr.config = m.config := by
  unfold startSpawn startTryBody
  dsimp only
  cases hsp : os.spawnResult <;> split_ifs <;> rfl

theorem startSpawn_fail_eq (m : Mgr) (os : OS) (evs : List Event)
    (h : os.spawnResult = none) :
    startSpawn m os evs =
      { mgr := { m with restartCount := 0, logHandleOpen := false }, os := os,
        events := evs, ok := false,
        msg := "Failed to start process: " ++ os.spawnErrMsg } := by
  unfold startSpawn startTryBody
  dsimp only
  rw [h]

theorem startSpawn_ok_spawned (m : Mgr) (os : OS) (evs : List Event)
    (h : (startSpawn m os evs).ok = true) :
    ∃ q, os.spawnResult = some q ∧ (startSpawn m os evs).mgr.pid = some q ∧
      Event.spawned q ∈ (startSpawn m os evs).events := by
  unfold startSpawn startTryBody at h ⊢
  dsimp only at h ⊢
  revert h
  cases hsp : os.spawnResult with
  | none =>
    intro h
    simp at h
  | some q =>
    intro h
    exact ⟨q, rfl, rfl, by simp⟩

theorem startSpawn_events_shape (m : Mgr) (os : OS) (evs : List Event)
    (hevs : ∀ e ∈ evs, termKillSpawn e) :
    ∀ e ∈ (startSpawn m os evs).events, termKillSpawn e := by
  unfold startSpawn startTryBody
  dsimp only
  cases hsp : os.spawnResult with
  | none => exact hevs
  | some q =>
    intro e he
    simp only [List.mem_append, List.mem_singleton] at he
    rcases he with he | he
    · exact hevs e he
    · exact Or.inr ⟨q, he⟩

theorem startForce_count (m : Mgr) (os : OS) (f : Bool) (evs : List Event) :
    (startForce m os f evs).mgr.restartCount = 0 ∨
      (startForce m os f evs).mgr.restartCount = m.restartCount := by
  unfold startForce
  split_ifs with h
  · split
    · dsimp only
      split_ifs with h1 h2
      · exact Or.inr rfl
      · exact Or.inl (startSpawn_count m _ _)
      · exact Or.inl (startSpawn_count m _ _)
    · exact Or.inl (startSpawn_count m _ _)
  · exact Or.inl (startSpawn_count m _ _)

theorem startForce_config (m : Mgr) (os : OS) (f : Bool) (evs : List Event) :
    (startForce m os f evs).mgr.config = m.config := by
  unfold startForce
  split_ifs with h
  · split
    · dsimp only
      split_ifs with h1 h2
      · rfl
      · exact startSpawn_config m _ _
      · exact startSpawn_config m _ _
    · exact startSpawn_config m _ _
  · exact startSpawn_config m _ _

theorem startForce_ok_spawned (m : Mgr) (os : OS) (f : Bool) (evs : List Event)
    (h : (startForce m os f evs).ok = true) :
    ∃ q, (startForce m os f evs).mgr.pid = some q ∧
      Event.spawned q ∈ (startForce m os f evs).events := by
  revert h
  unfold startForce
  split_ifs with hf
  · split
    · dsimp only
      split_ifs with h1 h2
      · intro h
        simp at h
      all_goals
        intro h
        obtain ⟨q, _, hpid, hmem⟩ := startSpawn_ok_spawned m _ _ h
        exact ⟨q, hpid, hmem⟩
    · intro h
      obtain ⟨q, _, hpid, hmem⟩ := startSpawn_ok_spawned m _ _ h
      exact ⟨q, hpid, hmem⟩
  · intro h
    obtain ⟨q, _, hpid, hmem⟩ := startSpawn_ok_spawned m _ _ h
    exact ⟨q, hpid, hmem⟩

theorem startForce_events_shape (m : Mgr) (os : OS) (f : Bool) (evs : List Event)
    (hevs : ∀ e ∈ evs, termKillSpawn e) :
    ∀ e ∈ (startForce m os f evs).events, termKillSpawn e := by
  unfold startForce
  have hfk : ∀ os', ∀ e ∈ evs ++ (force_kill_port_processes m os').2.1,
      termKillSpawn e := by
    intro os' e he
    rcases List.mem_append.mp he with h1 | h1
    · exact hevs e h1
    · exact Or.inl (force_kill_events_shape m os' e h1)
  split_ifs with h
  · split
    · dsimp only
      split_ifs with h1 h2
      · exact hfk os
      · exact startSpawn_events_shape m _ _ (hfk os)
      · exact startSpawn_events_shape m _ _ hevs
    · exact startSpawn_events_shape m _ _ hevs
  · exact startSpawn_events_shape m _ _ hevs

theorem start_running_eq (m : Mgr) (os : OS) (f : Bool)
    (h : is_running m os = true) :
    start m os f = { mgr := m, os := os, events := [], ok := true,
                     msg := "Process is already running" } := by
  unfold start
  rw [if_pos h]

theorem start_forceNew_eq (m : Mgr) (os : OS)
    (h : is_running m os = false) :
    start m os true = startForce m os true [] := by
  unfold start
  rw [h]
  simp

theorem attach_mgr_cases (m : Mgr) (os : OS) :
    (attach_to_existing_process m os).1 = m ∨
      ∃ q, (attach_to_existing_process m os).1 =
        { m with pid := some q, hasProc := false } := by
  unfold attach_to_existing_process
  split
  · exact Or.inl rfl
  · split_ifs with h
    · exact Or.inl rfl
    · split
      · exact Or.inl rfl
      · exact Or.inr ⟨_, rfl⟩

theorem start_count (m : Mgr) (os : OS) (f : Bool) :
    (start m os f).mgr.restartCount = m.restartCount ∨
      (start m os f).mgr.restartCount = 0 := by
  unfold start
  split_ifs with h1 h2
  · exact Or.inl rfl
  · have hac := attach_mgr_cases m os
    split
    · rename_i m1 evs msg heq
      rw [heq] at hac
      simp only at hac
      rcases hac with ha | ⟨q, ha⟩ <;> subst ha <;> exact Or.inl rfl
    · rename_i m1 evs msg heq
      rw [heq] at hac
      simp only at hac
      rcases hac with ha | ⟨q, ha⟩ <;> subst ha <;>
        (rcases startForce_count _ os f evs with h | h
         · exact Or.inr h
         · exact Or.inl h)
  · rcases startForce_count m os f [] with h | h
    · exact Or.inr h
    · exact Or.inl h

theorem start_config (m : Mgr) (os : OS) (f : Bool) :
    (start m os f).mgr.config = m.config := by
  unfold start
  split_ifs with h1 h2
  · rfl
  · have hac := attach_mgr_cases m os
    split
    · rename_i m1 evs msg heq
      rw [heq] at hac
      simp only at hac
      rcases hac with ha | ⟨q, ha⟩ <;> subst ha <;> rfl
    · rename_i m1 evs msg heq
      rw [heq] at hac
      simp only at hac
      rcases hac with ha | ⟨q, ha⟩ <;> subst ha <;>
        exact startForce_config _ os f evs
  · exact startForce_config m os f []

theorem restart_eq (m : Mgr) (os : OS) :
    restart m os =
      (let r1 := stop m os
       let r2 := start r1.mgr r1.os true
       { r2 with
         events := r1.events ++ Event.slept m.config.restartDelay :: r2.events }) := by
  obtain ⟨r1, h1⟩ := stopExc_isOk m os
  unfold restart restartExc startExc
  rw [h1]
  rw [stop_of_stopExc m os r1 h1]

theorem stop_count (m : Mgr) (os : OS) :
    (stop m os).mgr.restartCount = m.restartCount := by
  rcases stop_mgr_cases m os with h | h | h <;> rw [h]

theorem stop_config (m : Mgr) (os : OS) :
    (stop m os).mgr.config = m.config := by
  rcases stop_mgr_cases m os with h | h | h <;> rw [h]

theorem restart_count (m : Mgr) (os : OS) :
    (restart m os).mgr.restartCount = m.restartCount ∨
      (restart m os).mgr.restartCount = 0 := by
  rw [restart_eq]
  dsimp only
  rcases start_count (stop m os).mgr (stop m os).os true with h | h
  · rw [h, stop_count]
    exact Or.inl rfl
  · exact Or.inr h

theorem restart_config (m : Mgr) (os : OS) :
    (restart m os).mgr.config = m.config := by
  rw [restart_eq]
  dsimp only
  rw [start_config, stop_config]

theorem termKillSpawn_not_attached (e : Event) (q : Nat)
    (h : termKillSpawn e) : e ≠ Event.attached q := by
  rcases h with (⟨r, rfl⟩ | ⟨r, rfl⟩) | ⟨r, rfl⟩ <;> simp

theorem start_forceNew_no_attach (m : Mgr) (os : OS) (q : Nat) :
    Event.attached q ∉ (start m os true).events := by
  by_cases h : is_running m os = true
  · rw [start_running_eq m os true h]
    simp
  · rw [start_forceNew_eq m os (by simpa using h)]
    intro hmem
    have := startForce_events_shape m os true [] (by simp) _ hmem
    exact termKillSpawn_not_attached _ q this rfl

theorem restart_no_attach (m : Mgr) (os : OS) (q : Nat) :
    Event.attached q ∉ (restart m os).events := by
  rw [restart_eq]
  dsimp only
  intro hmem
  rcases List.mem_append.mp hmem with h1 | h1
  · have := stop_events_shape m os _ h1
    exact termKillSpawn_not_attached _ q (Or.inl this) rfl
  · rcases List.mem_cons.mp h1 with h2 | h2
    · cases h2
    · exact start_forceNew_no_attach _ _ q h2

theorem start_count_le (m : Mgr) (os : OS) (f : Bool)
    (h : m.restartCount ≤ m.config.maxRestartAttempts) :
    (start m os f).mgr.restartCount ≤
      (start m os f).mgr.config.maxRestartAttempts := by
  rw [start_config]
  rcases start_count m os f with hc | hc <;> rw [hc]
  · exact h
  · exact Nat.zero_le _

theorem handleExit_config (m : Mgr) (os : OS) (ex : Bool) :
    (handleExit m os ex).mgr.config = m.config := by
  unfold handleExit
  dsimp only
  split_ifs with h1 h2
  · exact start_config _ os true
  · rfl
  · rfl

theorem handleExit_count_le (m : Mgr) (os : OS) (ex : Bool)
    (h : m.restartCount ≤ m.config.maxRestartAttempts) :
    (handleExit m os ex).mgr.restartCount ≤
      (handleExit m os ex).mgr.config.maxRestartAttempts := by
  unfold handleExit
  dsimp only
  split_ifs with h1 h2
  · exact start_count_le _ os true (Nat.succ_le_of_lt h2)
  · exact h
  · exact h

/-- Restart-counter safety: in every reachable manager state the counter is
bounded by the configured maximum. -/
theorem reachable_count_le (m : Mgr) (h : Reachable m) :
    m.restartCount ≤ m.config.maxRestartAttempts := by
  induction h with
  | init cfg => exact Nat.zero_le _
  | startStep m os f _ ih =>
    rw [start_config]
    rcases start_count m os f with hc | hc <;> rw [hc]
    · exact ih
    · exact Nat.zero_le _
  | stopStep m os _ ih =>
    rw [stop_config, stop_count]
    exact ih
  | restartStep m os _ ih =>
    rw [restart_config]
    rcases restart_count m os with hc | hc <;> rw [hc]
    · exact ih
    · exact Nat.zero_le _
  | attachStep m os _ ih =>
    rcases attach_mgr_cases m os with ha | ⟨q, ha⟩ <;> rw [ha] <;> exact ih
  | exitStep m os ex _ ih => exact handleExit_count_le m os ex ih
  | callbackStep m _ ih => exact ih

theorem splitWsAux_tokens (cs : List Char) :
    ∀ acc, (∀ c ∈ acc, c.isWhitespace = false) →
      ∀ t ∈ splitWsAux acc cs, ∀ c ∈ t, c.isWhitespace = false := by
  induction cs with
  | nil =>
    intro acc hacc t ht
    unfold splitWsAux at ht
    split_ifs at ht with h
    · simp at ht
    · simp only [List.mem_singleton] at ht
      subst ht
      intro c hc
      exact hacc c (List.mem_reverse.mp hc)
  | cons c cs ih =>
    intro acc hacc t ht
    unfold splitWsAux at ht
    split_ifs at ht with hws hacc0
    · exact ih [] (by simp) t ht
    · rcases List.mem_cons.mp ht with rfl | ht'
      · intro d hd
        exact hacc d (List.mem_reverse.mp hd)
      · exact ih [] (by simp) t ht'
    · refine ih (c :: acc) ?_ t ht
      intro d hd
      rcases List.mem_cons.mp hd with rfl | hd'
      · simp only [Bool.not_eq_true] at hws
        exact hws
      · exact hacc d hd'

theorem pySplit_no_ws (s : String) :
    ∀ t ∈ pySplit s, ∀ c ∈ t.data, c.isWhitespace = false := by
  intro t ht c hc
  unfold pySplit at ht
  obtain ⟨l, hl, rfl⟩ := List.mem_map.mp ht
  exact splitWsAux_tokens s.data [] (by simp) l hl c hc

theorem force_kill_escalation (m : Mgr) (os : OS) (p : Nat)
    (hp : m.config.port = some p) (q : Nat)
    (hq : q ∈ getProcessesUsingPort os p) (hself : q ≠ os.selfPid)
    (hst : os.procStatus q = .running) (hsd : os.signalDenied q = false) :
    Event.terminate q ∈ (force_kill_port_processes m os).2.1 ∧
      (os.termStops q = false →
        Event.kill q ∈ (force_kill_port_processes m os).2.1) := by
  unfold force_kill_port_processes
  rw [hp]
  dsimp only
  split_ifs with he
  · rw [List.isEmpty_iff] at he
    rw [he] at hq
    cases hq
  · exact killPids_escalation os _ q (List.nodup_dedup _) hq hself hst hsd

theorem startSpawn_events_mono (m : Mgr) (os : OS) (evs : List Event)
    (e : Event) (he : e ∈ evs) : e ∈ (startSpawn m os evs).events := by
  unfold startSpawn startTryBody
  cases hsp : os.spawnResult
  · exact he
  · exact List.mem_append.mpr (Or.inl he)

theorem startForce_true_clear_eq (m : Mgr) (os : OS) (p : Nat)
    (hp : m.config.port = some p)
    (hne : (getProcessesUsingPort os p).isEmpty = false)
    (hcl : (force_kill_port_processes m os).2.2 = true) :
    startForce m os true [] =
      startSpawn m (force_kill_port_processes m os).1
        ([] ++ (force_kill_port_processes m os).2.1) := by
  unfold startForce
  rw [hp]
  dsimp only
  rw [hne, hcl]
  simp

theorem startForce_true_fail_eq (m : Mgr) (os : OS) (p : Nat)
    (hp : m.config.port = some p)
    (hne : (getProcessesUsingPort os p).isEmpty = false)
    (hcl : (force_kill_port_processes m os).2.2 = false) :
    startForce m os true [] =
      { mgr := m, os := (force_kill_port_processes m os).1,
        events := [] ++ (force_kill_port_processes m os).2.1, ok := false,
        msg := s!"Failed to free port {p} for new process" } := by
  unfold startForce
  rw [hp]
  dsimp only
  rw [hne, hcl]
  simp

theorem startForce_true_events_sub (m : Mgr) (os : OS) (p : Nat)
    (hp : m.config.port = some p)
    (hne : (getProcessesUsingPort os p).isEmpty = false) :
    ∀ e ∈ (force_kill_port_processes m os).2.1,
      e ∈ (startForce m os true []).events := by
  by_cases hcl : (force_kill_port_processes m os).2.2 = true
  · rw [startForce_true_clear_eq m os p hp hne hcl]
    intro e he
    exact startSpawn_events_mono _ _ _ e (by simpa using he)
  · rw [startForce_true_fail_eq m os p hp hne (by simpa using hcl)]
    intro e he
    simpa using he

theorem start_no_port_eq (m : Mgr) (os : OS) (f : Bool)
    (hrun : is_running m os = false) (hport : m.config.port = none) :
    start m os f = startSpawn m os [] := by
  unfold start startForce
  rw [hrun, hport]
  cases f <;> simp

/-! ## Concrete fixtures -/

/-- Base example OS: pid 42 alive and listening on port 8080; signals work;
spawning would produce pid 7. -/
def osPort42 : OS :=
  { procStatus := fun q => if q = 42 then .running else .gone,
    portPids := fun p => if p = 8080 then [42] else [],
    signalDenied := fun _ => false,
    termStops := fun _ => true,
    killStops := fun _ => true,
    spawnResult := some 7,
    spawnErrMsg := "boom",
    selfPid := 1 }

/-- A managed-server config with port 8080. -/
def cfgPort : ProcessConfig := { command := Sum.inl "srv", port := some 8080 }

/-- A config with no port. -/
def cfgPlain : ProcessConfig := { command := Sum.inl "srv" }

/-- OS where an unrelated pid 99 owns port 8080. -/
def osStranger : OS :=
  { osPort42 with
    procStatus := fun q => if q = 99 then .running else .gone,
    portPids := fun p => if p = 8080 then [99] else [] }

/-- OS where the managed pid 5 is alive but protected: signalling it is
denied. -/
def osDenied : OS :=
  { osPort42 with
    procStatus := fun q => if q = 5 then .running else .gone,
    portPids := fun _ => [],
    signalDenied := fun q => q == 5,
    spawnResult := some 9 }

/-- Manager that spawned pid 5 (no port configured). -/
def mgrDenied : Mgr := { config := cfgPlain, hasProc := true, pid := some 5 }

/-- Manager that spawned pid 42 with port 8080 configured. -/
def mgrRun42 : Mgr := { config := cfgPort, hasProc := true, pid := some 42 }

/-- Config with both output capture and file logging enabled. -/
def cfgBoth : ProcessConfig :=
  { command := Sum.inl "srv", captureOutput := true, logToFile := true }

/-- Fresh manager with both options on and an observer registered. -/
def mgrBoth : Mgr := set_output_callback (initMgr cfgBoth)

/-- OS in which spawning fails. -/
def osSpawnFail : OS := { osPort42 with spawnResult := none }

/-- Config whose command cannot be executed. -/
def cfgBad : ProcessConfig := { command := Sum.inl "/bad/path" }

/-- Manager after a failed forced restart: counter stuck at 1, nothing
running. -/
def mgrAfterFail : Mgr := { config := cfgPort, restartCount := 1 }

/-- Manager whose counter has reached the maximum. -/
def mgrMaxed : Mgr :=
  { config := cfgPlain, hasProc := true, pid := some 5, restartCount := 3 }

/-- OS where pid 77 owns port 8080 and survives both SIGTERM and SIGKILL. -/
def osStuck : OS :=
  { osPort42 with
    procStatus := fun q => if q = 77 then .running else .gone,
    portPids := fun p => if p = 8080 then [77] else [],
    termStops := fun _ => false,
    killStops := fun _ => false }

/-! ## Claim theorems -/

/-- C1: the claim says `pid != null` iff the supervisor believes a process is
running, and that after a successful attach by port `is_running` reflects
whether the OS reports that pid as alive.  The code violates this: a
successful attach stores the pid with no spawn handle, and `is_running`
then returns `false` although the OS reports the pid alive, so `stop` on an
attached process immediately reports "Process is not running". -/
theorem C1_attach_breaks_is_running :
    (attach_to_existing_process (initMgr cfgPort) osPort42).2.2.1 = true ∧
    (attach_to_existing_process (initMgr cfgPort) osPort42).1.pid = some 42 ∧
    osPort42.procStatus 42 = ProcStatus.running ∧
    is_running (attach_to_existing_process (initMgr cfgPort) osPort42).1
      osPort42 = false ∧
    (stop (attach_to_existing_process (initMgr cfgPort) osPort42).1
      osPort42).msg = "Process is not running" :=
  ⟨rfl, rfl, rfl, rfl, rfl⟩

/-- C3 counterexample: a `stop()` with a configured port can return `ok=true`
through the not-running early path while the port is still owned (here by
pid 99), so `find_owner` afterwards is not nothing. -/
theorem C3_counterexample :
    cfgPort.port = some 8080 ∧
    (stop (initMgr cfgPort) osStranger).ok = true ∧
    portOwner (stop (initMgr cfgPort) osStranger).os 8080 = some 99 :=
  ⟨rfl, rfl, rfl⟩

/-- C3 amended: every `stop()` that found the process running and returned
`ok=true` leaves the configured port unowned (both the pid enumeration and
the `find_owner` lookup are empty); the not-running and
process-no-longer-exists early successes perform no port check. -/
theorem C3_stop_releases_port (m : Mgr) (os : OS) (p : Nat)
    (hp : m.config.port = some p)
    (hrun : is_running m os = true)
    (hok : (stop m os).ok = true) :
    (stop m os).os.portPids p = [] ∧ portOwner (stop m os).os p = none := by
  obtain ⟨hproc, pid, hpid, hst⟩ := (is_running_true_iff m os).mp hrun
  by_cases hsd : os.signalDenied pid = true
  · rw [stop_denied_eq m os pid hrun hpid hst hsd] at hok
    simp at hok
  · have hsd' : os.signalDenied pid = false := by simpa using hsd
    rw [stop_running_eq m os pid hrun hpid hst hsd'] at hok ⊢
    have hfree := stopPortPhase_ok_free m _ _ _ p hp hok
    refine ⟨hfree, ?_⟩
    unfold portOwner
    rw [hfree]
    rfl

/-- C3 witness: a concrete running process on port 8080 is stopped, the stop
succeeds, and the port is free afterwards. -/
theorem C3_stop_releases_port_witness :
    mgrRun42.config.port = some 8080 ∧
    is_running mgrRun42 osPort42 = true ∧
    (stop mgrRun42 osPort42).ok = true ∧
    (stop mgrRun42 osPort42).os.portPids 8080 = [] ∧
    portOwner (stop mgrRun42 osPort42).os 8080 = none := by
  have h := C3_stop_releases_port mgrRun42 osPort42 8080 rfl rfl (by rfl)
  exact ⟨rfl, rfl, by rfl, h.1, h.2⟩

/-- C6: the claim says that with capture enabled, file logging enabled and a
callback registered, both the observer and the sink receive every line.  In
the code, enabling file logging hands the child the log file as its stdout,
so no pipe exists (`Popen.stdout is None`), the read loop returns at once,
and the observer callback receives nothing; the manual write-to-sink block
of `_read_output` is unreachable. -/
theorem C6_observer_receives_nothing :
    mgrBoth.config.captureOutput = true ∧
    mgrBoth.config.logToFile = true ∧
    mgrBoth.hasCallback = true ∧
    (start mgrBoth osPort42 false).ok = true ∧
    (start mgrBoth osPort42 false).mgr.stdoutPipe = false ∧
    readOutputDeliveries (start mgrBoth osPort42 false).mgr ["ready"] =
      ([], []) :=
  ⟨rfl, rfl, rfl, rfl, rfl, rfl⟩

/-- C9: force-killing the owners of the configured port never signals the
supervisor's own pid: neither a terminate nor a kill event for `selfPid` is
ever emitted by `_force_kill_port_processes`. -/
theorem C9_never_signals_self (m : Mgr) (os : OS) :
    Event.terminate os.selfPid ∉ (force_kill_port_processes m os).2.1 ∧
      Event.kill os.selfPid ∉ (force_kill_port_processes m os).2.1 :=
  force_kill_self_events m os

/-- C10: a string command is turned into the argument vector by a plain
whitespace split with no shell interpretation, so an argument containing
whitespace (such as a quoted argument with internal spaces) is never passed
as a single argument, for any command string; concretely the quoted
argument of `echo "hello world"` is split in two. -/
theorem C10_whitespace_split :
    (∀ (s a : String), (∃ c ∈ a.data, c.isWhitespace = true) →
      a ∉ buildArgv (Sum.inl s)) ∧
    buildArgv (Sum.inl "echo \"hello world\"") =
      ["echo", "\"hello", "world\""] := by
  constructor
  · rintro s a ⟨c, hc, hw⟩ hmem
    have := pySplit_no_ws s a hmem c hc
    rw [hw] at this
    cases this
  · rfl

/-- C10 witness: the quoted argument `"hello world"` contains whitespace and
is indeed not a single element of the built argument vector. -/
theorem C10_whitespace_split_witness :
    (∃ c ∈ ("\"hello world\"" : String).data, c.isWhitespace = true) ∧
    ("\"hello world\"" : String) ∉
      buildArgv (Sum.inl "echo \"hello world\"") :=
  ⟨by decide, C10_whitespace_split.1 _ _ (by decide)⟩

/-- C2 counterexample: a successful `restart()` whose process identifier is
unchanged.  Stopping pid 5 is denied by the OS, `stop` returns a failure
that `restart` ignores, and `start(force_new=true)` then reports
"Process is already running" — `restart` returns `ok=true` with the same
pid 5 as before. -/
theorem C2_counterexample :
    mgrDenied.pid = some 5 ∧
    (restart mgrDenied osDenied).ok = true ∧
    (restart mgrDenied osDenied).mgr.pid = some 5 :=
  ⟨rfl, rfl, rfl⟩

/-- C2 amended: `restart()` is `stop()`, the configured delay, then
`start(force_new=true)` and never re-attaches; every successful restart
either records the pid of a process it freshly spawned, or — when the old
process could not be stopped — returns success with the pid unchanged and
the message "Process is already running". -/
theorem C2_restart_semantics (m : Mgr) (os : OS) :
    restart m os =
      (let r1 := stop m os
       let r2 := start r1.mgr r1.os true
       { r2 with
         events := r1.events ++ Event.slept m.config.restartDelay :: r2.events }) ∧
    (∀ q, Event.attached q ∉ (restart m os).events) ∧
    ((restart m os).ok = true →
      ((restart m os).msg = "Process is already running" ∧
        (restart m os).mgr.pid = m.pid) ∨
      (∃ q, (restart m os).mgr.pid = some q ∧
        Event.spawned q ∈ (restart m os).events)) := by
  refine ⟨restart_eq m os, fun q => restart_no_attach m os q, ?_⟩
  intro hok
  rw [restart_eq m os] at hok ⊢
  dsimp only at hok ⊢
  by_cases hr : is_running (stop m os).mgr (stop m os).os = true
  · rw [start_running_eq _ _ true hr] at hok ⊢
    left
    refine ⟨rfl, ?_⟩
    obtain ⟨hproc, pid, hpid, _⟩ := (is_running_true_iff _ _).mp hr
    rcases stop_mgr_cases m os with h | h | h
    · rw [h]
    · rw [h] at hpid
      simp at hpid
    · rw [h] at hpid
      simp at hpid
  · have hr' : is_running (stop m os).mgr (stop m os).os = false := by
      simpa using hr
    rw [start_forceNew_eq _ _ hr'] at hok ⊢
    right
    obtain ⟨q, hpid, hmem⟩ := startForce_ok_spawned _ _ true [] hok
    exact ⟨q, hpid,
      List.mem_append.mpr (Or.inr (List.mem_cons.mpr (Or.inr hmem)))⟩

/-- C2 witness: a concrete restart of the running pid 42 succeeds by
spawning a fresh process whose pid is recorded. -/
theorem C2_restart_semantics_witness :
    (restart mgrRun42 osPort42).ok = true ∧
    (∃ q, (restart mgrRun42 osPort42).mgr.pid = some q ∧
      Event.spawned q ∈ (restart mgrRun42 osPort42).events) := by
  have h := (C2_restart_semantics mgrRun42 osPort42).2.2 (by rfl)
  refine ⟨by rfl, ?_⟩
  rcases h with ⟨hmsg, _⟩ | h2
  · exact absurd hmsg (by decide)
  · exact h2

/-- C4: when `start(force_new=true)` finds the configured port owned, every
owner pid other than the supervisor itself receives a graceful terminate
and, when that does not stop it, a force kill; if the port still cannot be
freed, start fails with a port-conflict message and spawns nothing. -/
theorem C4_port_conflict (m : Mgr) (os : OS) (p : Nat)
    (hp : m.config.port = some p) (hrun : is_running m os = false) :
    (∀ q ∈ getProcessesUsingPort os p, q ≠ os.selfPid →
      os.procStatus q = ProcStatus.running → os.signalDenied q = false →
        Event.terminate q ∈ (start m os true).events ∧
        (os.termStops q = false →
          Event.kill q ∈ (start m os true).events)) ∧
    ((force_kill_port_processes m os).2.2 = false →
      (start m os true).ok = false ∧
      (start m os true).msg = s!"Failed to free port {p} for new process" ∧
      ∀ q, Event.spawned q ∉ (start m os true).events) := by
  rw [start_forceNew_eq m os hrun]
  constructor
  · intro q hq hself hst hsd
    have hne : (getProcessesUsingPort os p).isEmpty = false := by
      cases he : (getProcessesUsingPort os p).isEmpty
      · rfl
      · rw [List.isEmpty_iff] at he
        rw [he] at hq
        cases hq
    have hesc := force_kill_escalation m os p hp q hq hself hst hsd
    have hsub := startForce_true_events_sub m os p hp hne
    exact ⟨hsub _ hesc.1, fun ht => hsub _ (hesc.2 ht)⟩
  · intro hcl
    have hne : (getProcessesUsingPort os p).isEmpty = false := by
      cases he : (getProcessesUsingPort os p).isEmpty
      · rfl
      · exfalso
        unfold force_kill_port_processes at hcl
        rw [hp] at hcl
        dsimp only at hcl
        rw [if_pos he] at hcl
        simp at hcl
    rw [startForce_true_fail_eq m os p hp hne hcl]
    refine ⟨rfl, rfl, ?_⟩
    intro q hmem
    simp only [List.nil_append] at hmem
    rcases force_kill_events_shape m os _ hmem with ⟨r, hr⟩ | ⟨r, hr⟩ <;>
      exact Event.noConfusion hr

/-- C4 witness: pid 77 owns port 8080 and survives both signals; the forced
start terminates it, escalates to kill, and fails without spawning. -/
theorem C4_port_conflict_witness :
    Event.terminate 77 ∈ (start (initMgr cfgPort) osStuck true).events ∧
    Event.kill 77 ∈ (start (initMgr cfgPort) osStuck true).events ∧
    (start (initMgr cfgPort) osStuck true).ok = false := by
  have h := C4_port_conflict (initMgr cfgPort) osStuck 8080 rfl rfl
  have h1 := h.1 77 (by decide) (by decide) (by decide) (by decide)
  have h2 := h.2 (by rfl)
  exact ⟨h1.1, h1.2 (by decide), h2.1⟩

/-- C5 counterexample: an explicit `start` need not reset the counter.  From
a state with the counter at 1 (left behind by a failed forced restart), an
explicit `start` that attaches to the existing port owner returns `ok=true`
with the counter still 1, not 0. -/
theorem C5_counterexample :
    mgrAfterFail.restartCount = 1 ∧
    (start mgrAfterFail osStranger false).ok = true ∧
    (start mgrAfterFail osStranger false).mgr.restartCount = 1 :=
  ⟨rfl, rfl, rfl⟩

/-- C5 amended: the restart counter never exceeds the configured maximum in
any reachable state; an exit detected with the counter at or above the
maximum triggers no automatic restart; an exit detected below the maximum
increments the counter, waits the delay, and calls `start(force_new=true)`;
and a start that reaches the spawn block resets the counter to zero (a
start that returns early — already running, successful attach, or
port-clearing failure — leaves it unchanged). -/
theorem C5_restart_counter_bound :
    (∀ m, Reachable m → m.restartCount ≤ m.config.maxRestartAttempts) ∧
    (∀ (m : Mgr) (os : OS) (ex : Bool),
      m.config.maxRestartAttempts ≤ m.restartCount →
      (handleExit m os ex).events = [] ∧
      (handleExit m os ex).mgr.restartCount = m.restartCount) ∧
    (∀ (m : Mgr) (os : OS),
      m.hasProc = true → m.restartCount < m.config.maxRestartAttempts →
      handleExit m os true =
        (let m2 : Mgr :=
          { m with logHandleOpen := false, hasProc := false, pid := none,
                   restartCount := m.restartCount + 1 }
         let r := start m2 os true
         { r with events := Event.slept m.config.restartDelay :: r.events })) ∧
    (∀ (m : Mgr) (os : OS) (evs : List Event),
      (startSpawn m os evs).mgr.restartCount = 0) := by
  refine ⟨fun m h => reachable_count_le m h, ?_, ?_,
    fun m os evs => startSpawn_count m os evs⟩
  · intro m os ex hmax
    unfold handleExit
    dsimp only
    split_ifs with h1 h2
    · exact absurd h2 (Nat.not_lt.mpr hmax)
    · exact ⟨rfl, rfl⟩
    · exact ⟨rfl, rfl⟩
  · intro m os hproc hlt
    unfold handleExit
    dsimp only
    rw [hproc]
    simp only [Bool.and_self, if_true]
    rw [if_pos hlt]

/-- C5 witness: the bound holds in the initial state; a maxed-out counter
suppresses auto-restart; and an exit below the maximum performs the
delay-then-forced-start sequence. -/
theorem C5_restart_counter_bound_witness :
    (initMgr cfgPlain).restartCount ≤
      (initMgr cfgPlain).config.maxRestartAttempts ∧
    (handleExit mgrMaxed osPort42 true).events = [] ∧
    (handleExit mgrMaxed osPort42 true).mgr.restartCount = 3 ∧
    (handleExit mgrRun42 osPort42 true).events.head? =
      some (Event.slept 1) := by
  have h := C5_restart_counter_bound
  have h2 := h.2.1 mgrMaxed osPort42 true (by decide)
  have h3 := h.2.2.1 mgrRun42 osPort42 rfl (by decide)
  refine ⟨h.1 _ (Reachable.init cfgPlain), h2.1, h2.2, ?_⟩
  rw [h3]
  rfl

/-- C7: whenever the spawn block runs and spawning fails, `start` returns
`ok=false` with the failure reason in the message, and the log-file handle
opened during the call is closed before returning; in particular a plain
start with no port configured behaves this way. -/
theorem C7_spawn_failure :
    (∀ (m : Mgr) (os : OS) (evs : List Event), os.spawnResult = none →
      (startSpawn m os evs).ok = false ∧
      (startSpawn m os evs).msg = "Failed to start process: " ++ os.spawnErrMsg ∧
      (startSpawn m os evs).mgr.logHandleOpen = false) ∧
    (∀ (m : Mgr) (os : OS) (f : Bool), os.spawnResult = none →
      is_running m os = false → m.config.port = none →
      (start m os f).ok = false ∧
      (start m os f).msg = "Failed to start process: " ++ os.spawnErrMsg ∧
      (start m os f).mgr.logHandleOpen = false) := by
  constructor
  · intro m os evs h
    rw [startSpawn_fail_eq m os evs h]
    exact ⟨rfl, rfl, rfl⟩
  · intro m os f hsp hrun hport
    rw [start_no_port_eq m os f hrun hport, startSpawn_fail_eq m os [] hsp]
    exact ⟨rfl, rfl, rfl⟩

/-- C7 witness: a command that cannot be executed makes `start` fail with
the reason in the message and no open log handle afterwards. -/
theorem C7_spawn_failure_witness :
    (start (initMgr cfgBad) osSpawnFail false).ok = false ∧
    (start (initMgr cfgBad) osSpawnFail false).msg =
      "Failed to start process: boom" ∧
    (start (initMgr cfgBad) osSpawnFail false).mgr.logHandleOpen = false := by
  have h := C7_spawn_failure.2 (initMgr cfgBad) osSpawnFail false rfl rfl rfl
  refine ⟨h.1, ?_, h.2.2⟩
  rw [h.2.1]
  decide

/-- C8: with the boundary handlers made explicit, none of `start`, `stop`,
`restart` ever propagates an exception: each always produces an
`(ok, message)` result. -/
theorem C8_no_unhandled_faults (m : Mgr) (os : OS) (f : Bool) :
    (∃ r, startExc m os f = .ok r) ∧
    (∃ r, stopExc m os = .ok r) ∧
    (∃ r, restartExc m os = .ok r) := by
  refine ⟨⟨_, rfl⟩, stopExc_isOk m os, ?_⟩
  obtain ⟨r1, h1⟩ := stopExc_isOk m os
  unfold restartExc
  rw [h1]
  exact ⟨_, rfl⟩

end Maestro

